import Mathlib

/-!
Verification of the KeywordNotifier plugin (Kewwie/Vencord).

The repository contains the current plugin source
(`src/plugins/keywordNotifier/index.ts`) together with three earlier
variants of the same plugin (the unnamed source file, referred to below as
variant A, variant B and variant C in the order they appear).  Every
definition in this file is a direct shallow embedding of one of those four
TypeScript sources:

* JavaScript strings are Lean `String`s; `split(",")`, `trim()`,
  `toLowerCase()` and `includes` are modelled by the structurally recursive
  functions `splitComma`, `jsTrim`, `jsToLower` and `strIncludes` below,
  which implement exactly the JavaScript semantics on the ASCII inputs the
  plugin handles (`"".split(",")` is `[""]`, `"".includes("")` is `true`,
  and so on).
* `guildId` is a `String`; the JavaScript guard `if (!ctx.guildId)` tests
  string falsiness, i.e. absence or the empty string, modelled as
  `ctx.guildId = ""`.
* `UserStore.getCurrentUser()` / `getCurrentChannel()` /
  `UserStore.getUser(id)` may be `undefined`, modelled as `Option`;
  the optional-chaining comparisons `x === currentUser?.id` and
  `ctx.channelId === currentChannel?.id` are modelled by functions that
  return `false` when the option is `none` (in JavaScript a string is never
  `===` `undefined`).
* The side-effecting `Notify` functions are modelled as functions returning
  the list of renderer invocations (`NotifyEffect`) they perform, and the
  keyword loops as the list of keywords for which `Notify` is invoked.
-/

/-! ## JavaScript string primitives -/

/-- Lowercase a single character, as JavaScript `toLowerCase` acts on the
ASCII range (the only characters the plugin's keywords use). -/
def lowerChar (c : Char) : Char :=
  if 65 ≤ c.toNat ∧ c.toNat ≤ 90 then Char.ofNat (c.toNat + 32) else c

/-- JavaScript `String.prototype.toLowerCase`, ASCII range. -/
def jsToLower (s : String) : String :=
  String.mk (s.toList.map lowerChar)

/-- Whitespace characters removed by JavaScript `String.prototype.trim`
(the ones that can occur in the plugin's comma-separated settings). -/
def isWsChar (c : Char) : Bool :=
  c == ' ' || c == '\t' || c == '\n' || c == '\r'

/-- Drop leading whitespace from a character list. -/
def dropLeadingWs : List Char → List Char
  | [] => []
  | c :: rest => if isWsChar c then dropLeadingWs rest else c :: rest

/-- JavaScript `String.prototype.trim`. -/
def jsTrim (s : String) : String :=
  String.mk (dropLeadingWs ((dropLeadingWs s.toList.reverse).reverse))

/-- JavaScript `String.prototype.split(",")` on character lists:
`""` splits to `[""]`, `"a,"` splits to `["a", ""]`. -/
def splitCommaChars : List Char → List (List Char)
  | [] => [[]]
  | c :: rest =>
    if c == ',' then [] :: splitCommaChars rest
    else
      match splitCommaChars rest with
      | [] => [[c]]
      | g :: gs => (c :: g) :: gs

/-- JavaScript `String.prototype.split(",")`. -/
def splitComma (s : String) : List String :=
  (splitCommaChars s.toList).map String.mk

/-- Does `needle` occur at the start of `hay`? -/
def startsWithList : List Char → List Char → Bool
  | _, [] => true
  | [], _ :: _ => false
  | a :: as, b :: bs => (a == b) && startsWithList as bs

/-- JavaScript `String.prototype.includes` on character lists. -/
def listIncludes : List Char → List Char → Bool
  | [], needle => needle.isEmpty
  | a :: rest, needle => startsWithList (a :: rest) needle || listIncludes rest needle

/-- JavaScript `hay.includes(needle)` (substring containment). -/
def strIncludes (hay needle : String) : Bool :=
  listIncludes hay.toList needle.toList

/-! ## Data model (from the TypeScript interfaces) -/

/-- The `message.author` fields used by the plugin (`MessageJSON`/`Message`
author). -/
structure Author where
  id : String
  username : String
  discriminator : String
  avatar : String
  bot : Bool
deriving DecidableEq

/-- The fields of `ctx.message` the plugin reads; `mentions` holds the ids
of the mentioned users (the code only reads `mention.id`). -/
structure MessageJSON where
  id : String
  content : String
  author : Author
  mentions : List String
deriving DecidableEq

/-- The `MessageContext` interface.  `guildId = ""` models a falsy
(absent) guild id, exactly what `if (!ctx.guildId)` tests. -/
structure MessageContext where
  channelId : String
  guildId : String
  isPushNotification : Bool
  message : MessageJSON
deriving DecidableEq

/-- A user as returned by `UserStore.getCurrentUser` / `UserStore.getUser`;
the plugin reads only `id` and `bot`. -/
structure User where
  id : String
  bot : Bool
deriving DecidableEq

/-- The `notifications` SELECT setting: `"inApp"`, `"desktop"`, `"both"`. -/
inductive NotificationMode
  | inApp
  | desktop
  | both
deriving DecidableEq

/-- The scope SELECT settings of variants A and B: `"none"`, `"guild"`,
`"channel"`, and the combined scope (`"guild-channel"` in variant A,
`"both"` in variant B). -/
inductive ListScope
  | none
  | guild
  | channel
  | guildChannel
deriving DecidableEq

/-- The author snapshot placed into `NotificationOptions` by `index.ts`. -/
structure NotifAuthor where
  id : String
  username : String
  discriminator : String
  avatarUrl : String
deriving DecidableEq

/-- The message snapshot placed into `NotificationOptions`. -/
structure NotifMessage where
  id : String
  content : String
deriving DecidableEq

/-- The `NotificationOptions` interface of `index.ts`. -/
structure NotificationOptions where
  author : NotifAuthor
  keyword : String
  guildId : String
  channelId : String
  message : NotifMessage
deriving DecidableEq

/-- Outcome of one evaluation of `onMessageCreate` in `index.ts`: either no
notification (every early `return` and the no-match case) or the single
`Notify(options)` call made for the first matching keyword. -/
inductive MatchResult
  | suppressed
  | matched (keyword : String) (options : NotificationOptions)
deriving DecidableEq

/-- A renderer invocation performed by `Notify`: `Notices.showNotice(text,
label, cb)` or `showNotification({title, body, icon, onClick})`. -/
inductive NotifyEffect
  | notice (text : String) (label : String)
  | desktop (title : String) (body : String) (icon : String)
deriving DecidableEq

/-! ## index.ts (current plugin) -/

/-- The `definePluginSettings` fields of `index.ts`, with the raw
comma-separated strings exactly as stored. -/
structure Settings where
  keywords : String
  notifications : NotificationMode
  allowedGuilds : String
  allowedChannels : String
  ignoredGuilds : String
  ignoredChannels : String
  ignoredUsers : String
  ignoreBots : Bool
  ignoreMentions : Bool
deriving DecidableEq

/-- Embeds `settings.store.X.length > 0 ? settings.store.X.split(",").map(id =>
id.trim()) : []` (index.ts lines 138-142). -/
def parseList (s : String) : List String :=
  if s.length > 0 then (splitComma s).map jsTrim else []

/-- Variant-style id/keyword parsing without the length guard:
`settings.store.X.split(",").map(id => id.trim())`. -/
def parseIds (s : String) : List String :=
  (splitComma s).map jsTrim

/-- Embeds `settings.store.keywords.split(",").map(keyword =>
keyword.trim().toLowerCase())` (index.ts line 152). -/
def parsedKeywordsOf (raw : String) : List String :=
  (splitComma raw).map (fun k => jsToLower (jsTrim k))

/-- The loop-body test of index.ts line 154: `keyword.length > 0 &&
ctx.message.content.toLowerCase().includes(keyword)` (`length != 0` is
`length > 0` on `Nat`). -/
def matchTest (content keyword : String) : Bool :=
  (keyword.length != 0) && strIncludes (jsToLower content) keyword

/-- Embeds `x === currentUser?.id`: comparison against the current user's id
under optional chaining; `undefined` on the right never equals a string. -/
def eqCurrentUserId (cu : Option User) (x : String) : Bool :=
  match cu with
  | some u => x == u.id
  | Option.none => false

/-- Embeds `ctx.channelId === currentChannel?.id`. -/
def isCurrentChannel (cc : Option String) (channelId : String) : Bool :=
  match cc with
  | some c => channelId == c
  | Option.none => false

/-- The allow-list condition of index.ts line 144:
`(allowedGuilds.length > 0 && !allowedGuilds.includes(ctx.guildId)) &&
(allowedChannels.length > 0 && !allowedChannels.includes(ctx.channelId))`. -/
def allowRejectIdx (s : Settings) (ctx : MessageContext) : Bool :=
  (((parseList s.allowedGuilds).length != 0) &&
    !((parseList s.allowedGuilds).contains ctx.guildId)) &&
  (((parseList s.allowedChannels).length != 0) &&
    !((parseList s.allowedChannels).contains ctx.channelId))

/-- The bot check of index.ts line 150: `settings.store.ignoreBots &&
UserStore.getUser(ctx.message.author.id)?.bot`; when the lookup returns
nothing, `undefined?.bot` is falsy. -/
def botSuppressed (s : Settings) (getUser : String → Option User)
    (authorId : String) : Bool :=
  s.ignoreBots &&
    (match getUser authorId with
     | some u => u.bot
     | Option.none => false)

/-- Function `getUserAvatarUrl` of index.ts. -/
def getUserAvatarUrl (userId avatar : String) : String :=
  "https://cdn.discordapp.com/avatars/" ++ userId ++ "/" ++ avatar ++ ".png"

/-- The `options` object built in the keyword loop of index.ts. -/
def mkOptions (ctx : MessageContext) (keyword : String) : NotificationOptions :=
  { author :=
      { id := ctx.message.author.id
        username := ctx.message.author.username
        discriminator := ctx.message.author.discriminator
        avatarUrl := getUserAvatarUrl ctx.message.author.id ctx.message.author.avatar }
    keyword := keyword
    guildId := ctx.guildId
    channelId := ctx.channelId
    message := { id := ctx.message.id, content := ctx.message.content } }

/-- The keyword loop of index.ts lines 152-174: scan the parsed keywords in
order, and on the first one passing `matchTest` call `Notify` once and
`break`; if none matches the handler returns without notifying. -/
def scanKeywords (s : Settings) (ctx : MessageContext) : MatchResult :=
  match (parsedKeywordsOf s.keywords).find? (fun k => matchTest ctx.message.content k) with
  | some k => MatchResult.matched k (mkOptions ctx k)
  | Option.none => MatchResult.suppressed

/-- index.ts lines 138-174, the stages after the identity/location guards:
the allow-list check, the three deny checks, the bot check, and the
keyword scan. -/
def listStagesAndScan (s : Settings) (getUser : String → Option User)
    (ctx : MessageContext) : MatchResult :=
  if allowRejectIdx s ctx then MatchResult.suppressed
  else if (parseList s.ignoredGuilds).contains ctx.guildId then MatchResult.suppressed
  else if (parseList s.ignoredChannels).contains ctx.channelId then MatchResult.suppressed
  else if (parseList s.ignoredUsers).contains ctx.message.author.id then MatchResult.suppressed
  else if botSuppressed s getUser ctx.message.author.id then MatchResult.suppressed
  else scanKeywords s ctx

/-- Function `onMessageCreate` of index.ts lines 127-175, as the decision function
(event, settings, current user, current channel, user directory) to
`MatchResult`. -/
def onMessageCreate (s : Settings) (cu : Option User) (cc : Option String)
    (getUser : String → Option User) (ctx : MessageContext) : MatchResult :=
  if ctx.guildId = "" then MatchResult.suppressed
  else if ctx.isPushNotification then MatchResult.suppressed
  else if s.ignoreMentions && ctx.message.mentions.any (fun m => eqCurrentUserId cu m) then
    MatchResult.suppressed
  else if eqCurrentUserId cu ctx.message.author.id then MatchResult.suppressed
  else if isCurrentChannel cc ctx.channelId then MatchResult.suppressed
  else listStagesAndScan s getUser ctx

/-- The keywords for which index.ts invokes `Notify` on this event (one or
zero, because of the `break`). -/
def dispatchedKeywords : MatchResult → List String
  | MatchResult.suppressed => []
  | MatchResult.matched k _ => [k]

/-- Function `getUserTag` of index.ts. -/
def getUserTag (username discriminator : String) : String :=
  username ++ (if discriminator != "0" then "#" ++ discriminator else "")

/-- Interpolating a possibly-failed directory lookup into a template
string: JavaScript renders `undefined`. -/
def optName : Option String → String
  | some n => n
  | Option.none => "undefined"

/-- Function `Notify` of index.ts lines 101-125, returning the renderer invocations
it performs: the in-app notice when the mode is `inApp` or `both`, then
the desktop notification when the mode is `desktop` or `both`. -/
def Notify (mode : NotificationMode) (getGuildName getChannelName : String → Option String)
    (o : NotificationOptions) : List NotifyEffect :=
  (if mode == NotificationMode.inApp || mode == NotificationMode.both then
    [NotifyEffect.notice
      ("@" ++ getUserTag o.author.username o.author.discriminator ++ " mentioned \"" ++
        o.keyword ++ "\" in " ++ optName (getGuildName o.guildId))
      "Go To Message"]
   else []) ++
  (if mode == NotificationMode.desktop || mode == NotificationMode.both then
    [NotifyEffect.desktop
      (o.author.username ++ " (#" ++ optName (getChannelName o.channelId) ++ ", " ++
        optName (getGuildName o.guildId) ++ ")")
      o.message.content
      o.author.avatarUrl]
   else [])

/-- Number of in-app notice invocations in an effect list. -/
def countNotices (l : List NotifyEffect) : Nat :=
  (l.filter (fun e => match e with | NotifyEffect.notice _ _ => true | _ => false)).length

/-- Number of desktop notification invocations in an effect list. -/
def countDesktops (l : List NotifyEffect) : Nat :=
  (l.filter (fun e => match e with | NotifyEffect.desktop _ _ _ => true | _ => false)).length

/-! ## Variant A (first document of the unnamed source file) -/

/-- The settings of variant A (`whitelists`/`blacklists` scope SELECTs with
the `"guild-channel"` combined value; the `channelBlackklist` field name
typo is the source's). -/
structure SettingsA where
  keywords : String
  whitelists : ListScope
  guildWhitelist : String
  channelWhitelist : String
  blacklists : ListScope
  channelBlackklist : String
  guildBlacklist : String
  notifications : NotificationMode
deriving DecidableEq

/-- Variant A lines 117-121: the whitelist block; each scope's failed
membership test returns early, so the block suppresses exactly when the
disjunction below holds (the scopes are mutually exclusive). -/
def whitelistRejectA (s : SettingsA) (ctx : MessageContext) : Bool :=
  if s.whitelists != ListScope.none then
    (s.whitelists == ListScope.guild &&
      !((parseIds s.guildWhitelist).contains ctx.guildId)) ||
    (s.whitelists == ListScope.channel &&
      !((parseIds s.channelWhitelist).contains ctx.channelId)) ||
    (s.whitelists == ListScope.guildChannel &&
      !((parseIds s.guildWhitelist).contains ctx.guildId) &&
      !((parseIds s.channelWhitelist).contains ctx.channelId))
  else false

/-- Variant A lines 124-126: the blacklist block. -/
def blacklistRejectA (s : SettingsA) (ctx : MessageContext) : Bool :=
  if s.blacklists != ListScope.none then
    (s.blacklists == ListScope.guild &&
      (parseIds s.guildBlacklist).contains ctx.guildId) ||
    (s.blacklists == ListScope.channel &&
      (parseIds s.channelBlackklist).contains ctx.channelId) ||
    (s.blacklists == ListScope.guildChannel &&
      (parseIds s.guildBlacklist).contains ctx.guildId &&
      (parseIds s.channelBlackklist).contains ctx.channelId)
  else false

/-- Variant A's keyword parse (line 129): `split(",").map(keyword =>
keyword.trim())` with no lowercasing. -/
def parsedKeywordsA (raw : String) : List String :=
  (splitComma raw).map jsTrim

/-- The keywords for which variant A invokes `Notify` on this event
(lines 130-132): the loop has no `break`, so `Notify(ctx, keyword)` runs
for every keyword with `keyword.length > 0 &&
ctx.message.content.includes(keyword)` (case-sensitive, content not
lowercased).  Variant A calls `UserStore.getCurrentUser().id` without
optional chaining, so the current user is a plain `User` here. -/
def dispatchedKeywordsA (s : SettingsA) (cu : User) (cc : Option String)
    (ctx : MessageContext) : List String :=
  if ctx.guildId = "" then []
  else if ctx.isPushNotification then []
  else if ctx.message.author.id == cu.id then []
  else if isCurrentChannel cc ctx.channelId then []
  else if whitelistRejectA s ctx then []
  else if blacklistRejectA s ctx then []
  else (parsedKeywordsA s.keywords).filter
    (fun k => (k.length != 0) && strIncludes ctx.message.content k)

/-- Variant A's `Notify(ctx, keyword)` (lines 82-104) as its renderer
invocations. -/
def NotifyA (mode : NotificationMode) (ctx : MessageContext) (keyword : String) :
    List NotifyEffect :=
  (if mode == NotificationMode.inApp || mode == NotificationMode.both then
    [NotifyEffect.notice
      ("@" ++ ctx.message.author.username ++
        " said something that included the keyword \"" ++ keyword ++ "\"")
      "Go To Message"]
   else []) ++
  (if mode == NotificationMode.desktop || mode == NotificationMode.both then
    [NotifyEffect.desktop "Keyword Notifier"
      ("@" ++ ctx.message.author.username ++ ": " ++ ctx.message.content)
      ctx.message.author.avatar]
   else [])

/-- Variant A's `onMessageCreate` as the full list of renderer invocations
it performs on one event. -/
def onMessageCreateA (s : SettingsA) (cu : User) (cc : Option String)
    (ctx : MessageContext) : List NotifyEffect :=
  (dispatchedKeywordsA s cu cc ctx).flatMap (NotifyA s.notifications ctx)

/-! ## Variant B (second document of the unnamed source file) -/

/-- The settings of variant B (`allowed`/`ignored` scope SELECTs whose
combined value is `"both"`, modelled by `ListScope.guildChannel`). -/
structure SettingsB where
  keywords : String
  notifications : NotificationMode
  ignoredUsers : String
  allowed : ListScope
  allowedGuilds : String
  allowedChannels : String
  ignored : ListScope
  ignoredGuilds : String
  ignoredChannels : String
deriving DecidableEq

/-- Variant B lines 290-294: the allow block.  Note the source's line 282
initialises its `allowedGuilds` array from
`settings.store.allowedChannels`, so the guild scope also tests membership
of the guild id in the parsed `allowedChannels` setting. -/
def allowRejectB (s : SettingsB) (ctx : MessageContext) : Bool :=
  if s.allowed != ListScope.none then
    (s.allowed == ListScope.guild &&
      !((parseIds s.allowedChannels).contains ctx.guildId)) ||
    (s.allowed == ListScope.channel &&
      !((parseIds s.allowedChannels).contains ctx.channelId)) ||
    (s.allowed == ListScope.guildChannel &&
      !((parseIds s.allowedChannels).contains ctx.guildId) &&
      !((parseIds s.allowedChannels).contains ctx.channelId))
  else false

/-- Variant B lines 296-300: the deny block; suppression happens for scope
`"guild"` when the guild id is in the parsed `ignoredGuilds`, for
`"channel"` when the channel id is in the parsed `ignoredChannels`, and
for `"both"` only when both memberships hold. -/
def denyCheckB (s : SettingsB) (ctx : MessageContext) : Bool :=
  if s.ignored != ListScope.none then
    (s.ignored == ListScope.guild &&
      (parseIds s.ignoredGuilds).contains ctx.guildId) ||
    (s.ignored == ListScope.channel &&
      (parseIds s.ignoredChannels).contains ctx.channelId) ||
    (s.ignored == ListScope.guildChannel &&
      (parseIds s.ignoredGuilds).contains ctx.guildId &&
      (parseIds s.ignoredChannels).contains ctx.channelId)
  else false

/-- Variant B's `onMessageCreate` (lines 276-324) as the single dispatched
keyword, if any: its loop lowercases keyword and content and `break`s after
the first match. -/
def dispatchedKeywordsB (s : SettingsB) (cu : User) (cc : Option String)
    (ctx : MessageContext) : List String :=
  if ctx.guildId = "" then []
  else if ctx.isPushNotification then []
  else if ctx.message.author.id == cu.id then []
  else if isCurrentChannel cc ctx.channelId then []
  else if (parseIds s.ignoredUsers).contains ctx.message.author.id then []
  else if allowRejectB s ctx then []
  else if denyCheckB s ctx then []
  else
    match (parsedKeywordsOf s.keywords).find? (fun k => matchTest ctx.message.content k) with
    | some k => [k]
    | Option.none => []

/-! ## Variant C (third document of the unnamed source file) -/

/-- The settings of variant C. -/
structure SettingsC where
  keywords : String
  notifications : NotificationMode
  allowedGuilds : String
  allowedChannels : String
  ignoredGuilds : String
  ignoredChannels : String
  ignoredUsers : String
  ignoreBots : Bool
deriving DecidableEq

/-- The author snapshot of variant C's `NotificationOptions` (no
discriminator field). -/
structure NotifAuthorC where
  id : String
  username : String
  avatarUrl : String
deriving DecidableEq

/-- Variant C's `NotificationOptions`. -/
structure NotificationOptionsC where
  author : NotifAuthorC
  keyword : String
  guildId : String
  channelId : String
  message : NotifMessage
deriving DecidableEq

/-- Outcome of variant C's `onMessageCreate`. -/
inductive MatchResultC
  | suppressed
  | matched (keyword : String) (options : NotificationOptionsC)
deriving DecidableEq

/-- The `options` object built in variant C's keyword loop. -/
def mkOptionsC (ctx : MessageContext) (keyword : String) : NotificationOptionsC :=
  { author :=
      { id := ctx.message.author.id
        username := ctx.message.author.username
        avatarUrl := getUserAvatarUrl ctx.message.author.id ctx.message.author.avatar }
    keyword := keyword
    guildId := ctx.guildId
    channelId := ctx.channelId
    message := { id := ctx.message.id, content := ctx.message.content } }

/-- Variant C's `onMessageCreate` (lines 451-494).  Its line 457 also
initialises the `allowedGuilds` array from
`settings.store.allowedChannels`, and both allow checks are unconditional
(lines 463-464).  Line 470 reads `ctx.message.author.bot` directly — the
event's own author record, with no `UserStore.getUser` lookup. -/
def onMessageCreateC (s : SettingsC) (cu : User) (cc : Option String)
    (ctx : MessageContext) : MatchResultC :=
  if ctx.guildId = "" then MatchResultC.suppressed
  else if ctx.isPushNotification then MatchResultC.suppressed
  else if ctx.message.author.id == cu.id then MatchResultC.suppressed
  else if isCurrentChannel cc ctx.channelId then MatchResultC.suppressed
  else if !((parseIds s.allowedChannels).contains ctx.guildId) then MatchResultC.suppressed
  else if !((parseIds s.allowedChannels).contains ctx.channelId) then MatchResultC.suppressed
  else if (parseIds s.ignoredGuilds).contains ctx.guildId then MatchResultC.suppressed
  else if (parseIds s.ignoredChannels).contains ctx.channelId then MatchResultC.suppressed
  else if (parseIds s.ignoredUsers).contains ctx.message.author.id then MatchResultC.suppressed
  else if s.ignoreBots && ctx.message.author.bot then MatchResultC.suppressed
  else
    match (parsedKeywordsOf s.keywords).find? (fun k => matchTest ctx.message.content k) with
    | some k => MatchResultC.matched k (mkOptionsC ctx k)
    | Option.none => MatchResultC.suppressed

/-! ## Concrete fixtures used by the claim theorems and witnesses -/

/-- A user directory in which no id resolves (`UserStore.getUser` always
returns `undefined`). -/
def gNone : String → Option User := fun _ => Option.none

/-- The current user of the test scenarios. -/
def u1 : User := { id := "U1", bot := false }

/-- A human message author distinct from the current user. -/
def auth2 : Author :=
  { id := "U2", username := "alice", discriminator := "0", avatar := "av", bot := false }

/-- A bot message author distinct from the current user. -/
def botAuth : Author :=
  { id := "U2", username := "robo", discriminator := "0", avatar := "av", bot := true }

/-- A message whose content is exactly the keyword `"hi"`. -/
def msgHi : MessageJSON := { id := "M", content := "hi", author := auth2, mentions := [] }

/-- Baseline index.ts settings: keyword `"hi"`, guild allow-list `"G1"`,
no channel allow-list, no deny lists. -/
def sIdx : Settings :=
  { keywords := "hi", notifications := NotificationMode.both,
    allowedGuilds := "G1", allowedChannels := "",
    ignoredGuilds := "", ignoredChannels := "", ignoredUsers := "",
    ignoreBots := false, ignoreMentions := true }

/-- An event in guild `"G1"`. -/
def ctxG1 : MessageContext :=
  { channelId := "C", guildId := "G1", isPushNotification := false, message := msgHi }

/-- An event in guild `"G2"`. -/
def ctxG2 : MessageContext :=
  { channelId := "C", guildId := "G2", isPushNotification := false, message := msgHi }

/-- A direct-message event: falsy `guildId`. -/
def ctxDM : MessageContext :=
  { channelId := "C", guildId := "", isPushNotification := false, message := msgHi }

/-- Variant A settings with whitelist scope `"guild"` and guild whitelist
`"G1"`. -/
def sA1 : SettingsA :=
  { keywords := "hi", whitelists := ListScope.guild, guildWhitelist := "G1",
    channelWhitelist := "", blacklists := ListScope.none, channelBlackklist := "",
    guildBlacklist := "", notifications := NotificationMode.both }

/-- Variant A settings with keywords `"foo,bar"` and no scoping. -/
def sA3 : SettingsA :=
  { keywords := "foo,bar", whitelists := ListScope.none, guildWhitelist := "",
    channelWhitelist := "", blacklists := ListScope.none, channelBlackklist := "",
    guildBlacklist := "", notifications := NotificationMode.inApp }

/-- Variant A settings with the single keyword `"world"` and no scoping. -/
def sA4 : SettingsA :=
  { keywords := "world", whitelists := ListScope.none, guildWhitelist := "",
    channelWhitelist := "", blacklists := ListScope.none, channelBlackklist := "",
    guildBlacklist := "", notifications := NotificationMode.inApp }

/-- index.ts settings with keywords `"foo,bar"` and no lists. -/
def s3 : Settings :=
  { keywords := "foo,bar", notifications := NotificationMode.both,
    allowedGuilds := "", allowedChannels := "",
    ignoredGuilds := "", ignoredChannels := "", ignoredUsers := "",
    ignoreBots := false, ignoreMentions := true }

/-- An event whose content `"bar and foo"` contains both keywords. -/
def ctxFoo : MessageContext :=
  { channelId := "C", guildId := "G", isPushNotification := false,
    message := { id := "M", content := "bar and foo", author := auth2, mentions := [] } }

/-- index.ts settings with the single keyword `"world"` and no lists. -/
def s4 : Settings :=
  { keywords := "world", notifications := NotificationMode.both,
    allowedGuilds := "", allowedChannels := "",
    ignoredGuilds := "", ignoredChannels := "", ignoredUsers := "",
    ignoreBots := false, ignoreMentions := true }

/-- An event whose content is `"Hello WORLD"`. -/
def ctx4 : MessageContext :=
  { channelId := "C", guildId := "G", isPushNotification := false,
    message := { id := "M", content := "Hello WORLD", author := auth2, mentions := [] } }

/-- index.ts settings whose `ignoredChannels` ends in a trailing comma,
producing an empty-string entry. -/
def s7a : Settings :=
  { keywords := "hi", notifications := NotificationMode.both,
    allowedGuilds := "", allowedChannels := "",
    ignoredGuilds := "", ignoredChannels := "C1,", ignoredUsers := "",
    ignoreBots := false, ignoreMentions := true }

/-- index.ts settings whose `allowedChannels` ends in a trailing comma. -/
def s7c : Settings :=
  { keywords := "hi", notifications := NotificationMode.both,
    allowedGuilds := "G1", allowedChannels := "C1,",
    ignoredGuilds := "", ignoredChannels := "", ignoredUsers := "",
    ignoreBots := false, ignoreMentions := true }

/-- An event whose `channelId` is the empty string. -/
def ctxEmptyChan : MessageContext :=
  { channelId := "", guildId := "G", isPushNotification := false, message := msgHi }

/-- An event in guild `"G2"` whose `channelId` is the empty string. -/
def ctx7c : MessageContext :=
  { channelId := "", guildId := "G2", isPushNotification := false, message := msgHi }

/-- index.ts settings with `ignoreBots` enabled. -/
def sBotIdx : Settings :=
  { keywords := "hi", notifications := NotificationMode.both,
    allowedGuilds := "", allowedChannels := "",
    ignoredGuilds := "", ignoredChannels := "", ignoredUsers := "",
    ignoreBots := true, ignoreMentions := true }

/-- An event authored by the bot `botAuth` with matching content. -/
def ctxBot : MessageContext :=
  { channelId := "C", guildId := "G", isPushNotification := false,
    message := { id := "M", content := "hi", author := botAuth, mentions := [] } }

/-- Variant C settings with `ignoreBots` enabled; `allowedChannels` lists
both ids because variant C reads that one setting for both allow arrays. -/
def sC9 : SettingsC :=
  { keywords := "hi", notifications := NotificationMode.both,
    allowedGuilds := "", allowedChannels := "G,C",
    ignoredGuilds := "", ignoredChannels := "", ignoredUsers := "",
    ignoreBots := true }

/-- Variant B settings with deny scope `"both"` and deny lists `"G1"` /
`"C1"`. -/
def sBW : SettingsB :=
  { keywords := "hi", notifications := NotificationMode.both, ignoredUsers := "",
    allowed := ListScope.none, allowedGuilds := "", allowedChannels := "",
    ignored := ListScope.guildChannel, ignoredGuilds := "G1", ignoredChannels := "C1" }

/-- An event in denied guild `"G1"` but non-denied channel `"C2"`. -/
def ctxBW : MessageContext :=
  { channelId := "C2", guildId := "G1", isPushNotification := false, message := msgHi }

/-- index.ts settings whose keyword list parses to blank entries only. -/
def sW6 : Settings :=
  { keywords := " , ", notifications := NotificationMode.both,
    allowedGuilds := "", allowedChannels := "",
    ignoredGuilds := "", ignoredChannels := "", ignoredUsers := "",
    ignoreBots := false, ignoreMentions := true }

/-- index.ts settings for the end-to-end scenario of the spec
(`keywords:["urgent"]`, mode Both, no lists). -/
def s10 : Settings :=
  { keywords := "urgent", notifications := NotificationMode.both,
    allowedGuilds := "", allowedChannels := "",
    ignoredGuilds := "", ignoredChannels := "", ignoredUsers := "",
    ignoreBots := false, ignoreMentions := true }

/-- An event whose content is `"this is urgent"`. -/
def ctx10 : MessageContext :=
  { channelId := "C", guildId := "G", isPushNotification := false,
    message := { id := "M", content := "this is urgent", author := auth2, mentions := [] } }

/-- Comparison pipeline for the missing-current-user theorem: index.ts's
`onMessageCreate` with the self-mention check (line 134) and the
own-message check (line 135) removed; stating that the real pipeline with
no current user coincides with this one formalises that both checks pass
without suppressing in that state. -/
def onMessageCreateNoSelfChecks (s : Settings) (cc : Option String)
    (getUser : String → Option User) (ctx : MessageContext) : MatchResult :=
  if ctx.guildId = "" then MatchResult.suppressed
  else if ctx.isPushNotification then MatchResult.suppressed
  else if isCurrentChannel cc ctx.channelId then MatchResult.suppressed
  else listStagesAndScan s getUser ctx

/-! ## Helper lemmas -/

/-- With no current user, the optional-chaining id comparison is false for
every mention in the list. -/
theorem any_eqCurrentUserId_none (l : List String) :
    (l.any fun m => eqCurrentUserId Option.none m) = false := by
  induction l with
  | nil => rfl
  | cons a as ih => simp [List.any, eqCurrentUserId, ih]

/-- A keyword that is empty after trimming never passes the loop test. -/
theorem matchTest_blank (content : String) : matchTest content "" = false := rfl

/-- No keyword of positive length is contained in empty content. -/
theorem matchTest_empty_content (k : String) : matchTest "" k = false := by
  cases k with
  | mk data => cases data <;> rfl

/-- The first element satisfying a predicate is the head of the filtered
list. -/
theorem find?_eq_filter_head {α : Type} (p : α → Bool) (l : List α) :
    l.find? p = (l.filter p).head? := by
  induction l with
  | nil => rfl
  | cons a as ih =>
    cases hp : p a with
    | true => simp only [List.find?_cons, List.filter_cons, hp, cond_true, if_true, List.head?_cons]
    | false => simp only [List.find?_cons, List.filter_cons, hp, cond_false, if_false, ih, Bool.false_eq_true, ite_false]

/-- Every early return of index.ts's `onMessageCreate` yields
`suppressed`; otherwise the evaluation is the keyword scan. -/
theorem onMessageCreate_cases (s : Settings) (cu : Option User) (cc : Option String)
    (g : String → Option User) (ctx : MessageContext) :
    onMessageCreate s cu cc g ctx = MatchResult.suppressed ∨
    onMessageCreate s cu cc g ctx = scanKeywords s ctx := by
  unfold onMessageCreate listStagesAndScan
  repeat' first
    | exact Or.inl rfl
    | exact Or.inr rfl
    | split

/-- A `MatchResult` dispatches at most one keyword. -/
theorem dispatchedKeywords_length_le_one (r : MatchResult) :
    (dispatchedKeywords r).length ≤ 1 := by
  cases r <;> simp [dispatchedKeywords]

/-- C5: for every rule set and every message event whose guildId is absent
(falsy, i.e. a direct/private message), index.ts's evaluation returns
suppressed and dispatches no notification, regardless of keywords, lists
or any other configuration. -/
theorem dm_guildless_suppressed (s : Settings) (cu : Option User) (cc : Option String)
    (g : String → Option User) (ctx : MessageContext) (h : ctx.guildId = "") :
    onMessageCreate s cu cc g ctx = MatchResult.suppressed ∧
    dispatchedKeywords (onMessageCreate s cu cc g ctx) = [] := by
  have hs : onMessageCreate s cu cc g ctx = MatchResult.suppressed := by
    unfold onMessageCreate
    rw [if_pos h]
  exact ⟨hs, by rw [hs]; rfl⟩

/-- Witness for C5 at a concrete direct-message event. -/
theorem dm_guildless_suppressed_witness :
    onMessageCreate sIdx (some u1) Option.none gNone ctxDM = MatchResult.suppressed ∧
    dispatchedKeywords (onMessageCreate sIdx (some u1) Option.none gNone ctxDM) = [] :=
  dm_guildless_suppressed sIdx (some u1) Option.none gNone ctxDM rfl

/-- C6: if every configured keyword is blank after trimming (in particular
when the keyword setting is empty, which parses to one blank entry), no
event is ever matched; and if the message content is empty, no event is
ever matched, because the loop requires keyword length greater than zero. -/
theorem blank_keywords_or_empty_content_no_match :
    (∀ (s : Settings) (cu : Option User) (cc : Option String)
       (g : String → Option User) (ctx : MessageContext),
       (∀ k ∈ parsedKeywordsOf s.keywords, k = "") →
       onMessageCreate s cu cc g ctx = MatchResult.suppressed) ∧
    (∀ (s : Settings) (cu : Option User) (cc : Option String)
       (g : String → Option User) (ctx : MessageContext),
       ctx.message.content = "" →
       onMessageCreate s cu cc g ctx = MatchResult.suppressed) := by
  constructor
  · intro s cu cc g ctx hall
    rcases onMessageCreate_cases s cu cc g ctx with hc | hc
    · exact hc
    · rw [hc]
      unfold scanKeywords
      have hnone : (parsedKeywordsOf s.keywords).find?
          (fun k => matchTest ctx.message.content k) = Option.none := by
        rw [List.find?_eq_none]
        intro x hx
        rw [hall x hx, matchTest_blank]
        exact Bool.false_ne_true
      rw [hnone]
  · intro s cu cc g ctx hcontent
    rcases onMessageCreate_cases s cu cc g ctx with hc | hc
    · exact hc
    · rw [hc]
      unfold scanKeywords
      have hnone : (parsedKeywordsOf s.keywords).find?
          (fun k => matchTest ctx.message.content k) = Option.none := by
        rw [List.find?_eq_none]
        intro x _
        rw [hcontent, matchTest_empty_content]
        exact Bool.false_ne_true
      rw [hnone]

/-- Witness for C6: an all-blank keyword configuration suppresses a
concrete event. -/
theorem blank_keywords_or_empty_content_no_match_witness :
    onMessageCreate sW6 (some u1) Option.none gNone ctxG2 = MatchResult.suppressed :=
  blank_keywords_or_empty_content_no_match.1 sW6 (some u1) Option.none gNone ctxG2 (by decide)

/-- C8: for every matched event, `Notify` with mode Both invokes the
in-app notice renderer exactly once and the desktop renderer exactly once;
mode InApp invokes only the notice renderer exactly once; mode Desktop
invokes only the desktop renderer exactly once. -/
theorem notify_mode_renderer_counts :
    ∀ (gg gc : String → Option String) (o : NotificationOptions),
      countNotices (Notify NotificationMode.both gg gc o) = 1 ∧
      countDesktops (Notify NotificationMode.both gg gc o) = 1 ∧
      countNotices (Notify NotificationMode.inApp gg gc o) = 1 ∧
      countDesktops (Notify NotificationMode.inApp gg gc o) = 0 ∧
      countNotices (Notify NotificationMode.desktop gg gc o) = 0 ∧
      countDesktops (Notify NotificationMode.desktop gg gc o) = 1 := by
  intro gg gc o
  exact ⟨rfl, rfl, rfl, rfl, rfl, rfl⟩

/-- C2: in variant B, with deny scope `"both"` (GuildsAndChannels), the
deny-list stage suppresses an event exactly when its guild id is in the
denied-guilds set AND its channel id is in the denied-channels set;
membership in only one of the two sets does not suppress. -/
theorem denylist_both_scope_conjunctive (s : SettingsB) (ctx : MessageContext)
    (h : s.ignored = ListScope.guildChannel) :
    denyCheckB s ctx = true ↔
      ((parseIds s.ignoredGuilds).contains ctx.guildId = true ∧
       (parseIds s.ignoredChannels).contains ctx.channelId = true) := by
  unfold denyCheckB
  rw [h]
  simp [show (ListScope.guildChannel != ListScope.none) = true from rfl,
        show (ListScope.guildChannel == ListScope.guild) = false from rfl,
        show (ListScope.guildChannel == ListScope.channel) = false from rfl,
        show (ListScope.guildChannel == ListScope.guildChannel) = true from rfl,
        Bool.and_assoc]

/-- Witness for C2: with deny lists `"G1"`/`"C1"`, the event in guild
`"G1"` and channel `"C2"` instantiates the equivalence. -/
theorem denylist_both_scope_conjunctive_witness :
    denyCheckB sBW ctxBW = true ↔
      ((parseIds sBW.ignoredGuilds).contains ctxBW.guildId = true ∧
       (parseIds sBW.ignoredChannels).contains ctxBW.channelId = true) :=
  denylist_both_scope_conjunctive sBW ctxBW rfl

/-- C10: when the current-user identity provider returns no user, the
self-mention check and the own-message check of index.ts never suppress
(the pipeline coincides with one in which those two checks are absent),
and a message authored by any user can still match a keyword in that
state. -/
theorem missing_current_user_checks_pass :
    (∀ (s : Settings) (cc : Option String) (g : String → Option User)
       (ctx : MessageContext),
       onMessageCreate s Option.none cc g ctx = onMessageCreateNoSelfChecks s cc g ctx) ∧
    onMessageCreate s10 Option.none Option.none gNone ctx10 =
      MatchResult.matched "urgent" (mkOptions ctx10 "urgent") := by
  constructor
  · intro s cc g ctx
    unfold onMessageCreate onMessageCreateNoSelfChecks
    rw [any_eqCurrentUserId_none]
    simp [eqCurrentUserId]
  · decide

/-- C9 amended, index.ts part: when the user-directory lookup of the
event's author returns nothing, the `ignoreBots` check never suppresses —
evaluation is the same as with `ignoreBots` disabled — and in particular a
bot-flagged event author with an unresolvable id still reaches keyword
scanning and matches. -/
theorem ignorebots_lookup_amended :
    (∀ (s : Settings) (cu : Option User) (cc : Option String)
       (g : String → Option User) (ctx : MessageContext),
       g ctx.message.author.id = Option.none →
       onMessageCreate s cu cc g ctx =
         onMessageCreate { s with ignoreBots := false } cu cc g ctx) ∧
    onMessageCreate sBotIdx (some u1) Option.none gNone ctxBot =
      MatchResult.matched "hi" (mkOptions ctxBot "hi") := by
  constructor
  · intro s cu cc g ctx h
    unfold onMessageCreate listStagesAndScan
    simp [botSuppressed, h, allowRejectIdx, scanKeywords, parsedKeywordsOf]
  · decide

/-- C9 counterexample: variant C's `ignoreBots` check reads the event's
own `author.bot` flag and consults no user directory, so a bot-flagged
author whose id no directory could resolve is suppressed anyway — with
`ignoreBots` off the same event matches the keyword. -/
theorem ignorebots_event_record_counterexample :
    onMessageCreateC sC9 u1 Option.none ctxBot = MatchResultC.suppressed ∧
    onMessageCreateC { sC9 with ignoreBots := false } u1 Option.none ctxBot =
      MatchResultC.matched "hi" (mkOptionsC ctxBot "hi") :=
  ⟨by decide, by decide⟩

/-- Witness for C9: the empty directory `gNone` resolves no author, and
evaluation of the concrete bot-authored event is unchanged when
`ignoreBots` is turned off. -/
theorem ignorebots_lookup_amended_witness :
    onMessageCreate sBotIdx (some u1) Option.none gNone ctxBot =
      onMessageCreate { sBotIdx with ignoreBots := false } (some u1) Option.none gNone ctxBot :=
  ignorebots_lookup_amended.1 sBotIdx (some u1) Option.none gNone ctxBot rfl

/-- C1 counterexample: in index.ts, with `allowedGuilds = "G1"` and no
channel allow-list configured, the event in guild `"G2"` with
keyword-matching content is NOT suppressed at the allow-list stage — the
conjunctive condition of line 144 lets it through and it matches. -/
theorem allowlist_guild_scope_counterexample :
    onMessageCreate sIdx (some u1) Option.none gNone ctxG2 =
      MatchResult.matched "hi" (mkOptions ctxG2 "hi") := by
  decide

/-- C1 amended: in variant A, whitelist scope `"guild"` with
`guildWhitelist = "G1"` passes every event in guild `"G1"` and rejects
every event in guild `"G2"` at the whitelist stage regardless of content;
in index.ts, whose allow lists combine conjunctively, configuring only
`allowedGuilds` (empty `allowedChannels`) rejects no event at the
allow-list stage, so both `"G1"` and `"G2"` pass it. -/
theorem allowlist_guild_scope_amended :
    (∀ ctx : MessageContext, ctx.guildId = "G1" → whitelistRejectA sA1 ctx = false) ∧
    (∀ ctx : MessageContext, ctx.guildId = "G2" → whitelistRejectA sA1 ctx = true) ∧
    (∀ (s : Settings) (ctx : MessageContext), s.allowedChannels = "" →
      allowRejectIdx s ctx = false) := by
  refine ⟨?_, ?_, ?_⟩
  · intro ctx h
    unfold whitelistRejectA
    rw [h]
    rfl
  · intro ctx h
    unfold whitelistRejectA
    rw [h]
    rfl
  · intro s ctx h
    unfold allowRejectIdx
    rw [h, show ((parseList "").length != 0) = false from rfl]
    simp

/-- Witness for C1: both halves of the variant A statement and the
index.ts statement at the concrete events `ctxG1` / `ctxG2`. -/
theorem allowlist_guild_scope_amended_witness :
    whitelistRejectA sA1 ctxG1 = false ∧
    whitelistRejectA sA1 ctxG2 = true ∧
    allowRejectIdx sIdx ctxG2 = false :=
  ⟨allowlist_guild_scope_amended.1 ctxG1 rfl,
   allowlist_guild_scope_amended.2.1 ctxG2 rfl,
   allowlist_guild_scope_amended.2.2 sIdx ctxG2 rfl⟩

/-- C3 counterexample: variant A's keyword loop has no `break`, so with
keywords `["foo","bar"]` and content `"bar and foo"` it dispatches TWO
notifications (for `"foo"` and then `"bar"`), not exactly one. -/
theorem first_keyword_only_counterexample :
    dispatchedKeywordsA sA3 u1 Option.none ctxFoo = ["foo", "bar"] ∧
    (onMessageCreateA sA3 u1 Option.none ctxFoo).length = 2 :=
  ⟨by decide, by decide⟩

/-- C3 amended: in index.ts, a matched evaluation returns exactly the
first keyword (in configured list order) passing the containment test, at
most one notification dispatch occurs per event, and on keywords
`["foo","bar"]` with content `"bar and foo"` the dispatched keyword is
`"foo"`; in variant A (no `break`) one dispatch occurs per matching
keyword instead. -/
theorem first_keyword_only_amended :
    (∀ (s : Settings) (cu : Option User) (cc : Option String)
       (g : String → Option User) (ctx : MessageContext)
       (k : String) (o : NotificationOptions),
       onMessageCreate s cu cc g ctx = MatchResult.matched k o →
       ((parsedKeywordsOf s.keywords).filter
         (fun x => matchTest ctx.message.content x)).head? = some k) ∧
    (∀ (s : Settings) (cu : Option User) (cc : Option String)
       (g : String → Option User) (ctx : MessageContext),
       (dispatchedKeywords (onMessageCreate s cu cc g ctx)).length ≤ 1) ∧
    dispatchedKeywords (onMessageCreate s3 (some u1) Option.none gNone ctxFoo) = ["foo"] := by
  refine ⟨?_, ?_, by decide⟩
  · intro s cu cc g ctx k o h
    rcases onMessageCreate_cases s cu cc g ctx with hc | hc
    · rw [hc] at h
      exact absurd h (by simp)
    · rw [hc] at h
      unfold scanKeywords at h
      rw [← find?_eq_filter_head]
      cases hfind : (parsedKeywordsOf s.keywords).find?
          (fun x => matchTest ctx.message.content x) with
      | none =>
        rw [hfind] at h
        exact absurd h (by simp)
      | some k2 =>
        rw [hfind] at h
        change MatchResult.matched k2 (mkOptions ctx k2) = MatchResult.matched k o at h
        injection h with h1 h2
        rw [h1]
  · intro s cu cc g ctx
    exact dispatchedKeywords_length_le_one _

/-- Witness for C3: applied to the concrete matched evaluation of
`s3`/`ctxFoo`, the first matching keyword is `"foo"`. -/
theorem first_keyword_only_amended_witness :
    ((parsedKeywordsOf s3.keywords).filter
      (fun x => matchTest ctxFoo.message.content x)).head? = some "foo" :=
  first_keyword_only_amended.1 s3 (some u1) Option.none gNone ctxFoo "foo"
    (mkOptions ctxFoo "foo") (by decide)

/-- C4 counterexample: variant A compares keywords and content without
lowercasing, so content `"Hello WORLD"` does NOT match keyword `"world"`
there (no notification is dispatched), although the lowercased keyword is
a substring of the lowercased content. -/
theorem case_insensitive_counterexample :
    dispatchedKeywordsA sA4 u1 Option.none ctx4 = [] ∧
    onMessageCreateA sA4 u1 Option.none ctx4 = [] ∧
    strIncludes (jsToLower "Hello WORLD") (jsToLower "world") = true :=
  ⟨by decide, by decide, by decide⟩

/-- C4 amended: in index.ts keyword containment is case-insensitive — a
configured keyword that is non-empty after trimming passes the loop test
exactly when its lowercased form is a substring of the lowercased content
— and content `"Hello WORLD"` matches keyword `"world"` end to end; in
variant A the comparison is raw (case-sensitive) and that example does not
match. -/
theorem case_insensitive_amended :
    (∀ (e content : String),
       ((jsToLower (jsTrim e)).length != 0) = true →
       (matchTest content (jsToLower (jsTrim e)) = true ↔
        strIncludes (jsToLower content) (jsToLower (jsTrim e)) = true)) ∧
    onMessageCreate s4 (some u1) Option.none gNone ctx4 =
      MatchResult.matched "world" (mkOptions ctx4 "world") := by
  constructor
  · intro e content h
    unfold matchTest
    rw [h, Bool.true_and]
  · decide

/-- Witness for C4 at keyword `"WoRld "` (trimming and lowercasing to
`"world"`) and content `"Hello WORLD"`. -/
theorem case_insensitive_amended_witness :
    matchTest "Hello WORLD" (jsToLower (jsTrim "WoRld ")) = true ↔
    strIncludes (jsToLower "Hello WORLD") (jsToLower (jsTrim "WoRld ")) = true :=
  case_insensitive_amended.1 "WoRld " "Hello WORLD" (by decide)

/-- C7: index.ts parses a trailing comma into a real empty-string entry
(`parseList "C1," = ["C1", ""]`), and that entry matches an empty incoming
field: with `ignoredChannels = "C1,"` an event whose `channelId` is `""`
is suppressed by the deny list (while the same configuration without the
trailing comma lets it match), and with `allowedChannels = "C1,"` the
empty entry makes the allow-list check pass for an event with empty
`channelId` in a non-allowed guild. -/
theorem empty_id_entry_matches_empty_field_bug :
    parseList "C1," = ["C1", ""] ∧
    onMessageCreate s7a (some u1) Option.none gNone ctxEmptyChan = MatchResult.suppressed ∧
    onMessageCreate { s7a with ignoredChannels := "C1" } (some u1) Option.none gNone ctxEmptyChan =
      MatchResult.matched "hi" (mkOptions ctxEmptyChan "hi") ∧
    onMessageCreate s7c (some u1) Option.none gNone ctx7c =
      MatchResult.matched "hi" (mkOptions ctx7c "hi") :=
  ⟨by decide, by decide, by decide, by decide⟩
